import Mathlib

/-!
Shallow embedding of the driver-selection and lifecycle logic of
`SU2_CFD.cpp` (`main`) and of the deformation-driver interface declared in
`CDeformationDriver.hpp`, together with theorems settling the spec's claims
about them.
-/

namespace SU2

/-- Solver kinds distinguished by the selection cascade in `main`
(`config->GetKind_Solver()`): the four single-zone-only kinds named
explicitly in the first branch, plus representative generic flow kinds. -/
inductive SolverKind where
  | FEM_ELASTICITY
  | POISSON_EQUATION
  | WAVE_EQUATION
  | HEAT_EQUATION
  | EULER
  | NAVIER_STOKES
  | RANS
  deriving DecidableEq, Repr

/-- Unsteady-simulation modes (`config->GetUnsteady_Simulation()`); the
cascade only tests for `HARMONIC_BALANCE`. -/
inductive UnsteadyMode where
  | STEADY
  | TIME_STEPPING
  | DT_STEPPING_1ST
  | DT_STEPPING_2ND
  | HARMONIC_BALANCE
  deriving DecidableEq, Repr

/-- Configuration values `main` reads before selecting a driver:
the config file name, the solver kind, the unsteady mode, the per-zone
time-instance count (`GetnTimeInstances`, an unsigned short), the
fluid-structure flag (`GetFSI_Simulation`), and the zone count and
dimensionality read from the mesh file (unsigned shorts). -/
structure MainInput where
  config_file_name : String
  kind_Solver : SolverKind
  unsteady_Simulation : UnsteadyMode
  nTimeInstances : Nat
  fsi : Bool
  nZone : Nat
  nDim : Nat
  deriving DecidableEq, Repr

/-- The five driver classes `main` can instantiate. -/
inductive DriverVariant where
  | CGeneralDriver
  | CHBDriver
  | CGeneralHBDriver
  | CFSIDriver
  | CFluidDriver
  deriving DecidableEq, Repr

/-- Constructor arguments of a driver: every `new C...Driver(...)` call in
`main` passes exactly the config file name, one count (`nZone` or
`nTimeInstances` depending on the variant), and `nDim`. -/
structure DriverArgs where
  variant : DriverVariant
  config_file_name : String
  count : Nat
  nDim : Nat
  deriving DecidableEq, Repr

/-- The condition of the first branch of the cascade: the solver kind is one
of the four single-zone-only kinds (`FEM_ELASTICITY || POISSON_EQUATION ||
WAVE_EQUATION || HEAT_EQUATION`). -/
def singleZoneSolverKind (k : SolverKind) : Bool :=
  k = SolverKind.FEM_ELASTICITY ∨ k = SolverKind.POISSON_EQUATION ∨
    k = SolverKind.WAVE_EQUATION ∨ k = SolverKind.HEAT_EQUATION

/-- Truncation of an assignment to a C++ `unsigned short`. -/
def ushort (n : Nat) : Nat := n % 65536

/-- The driver-selection cascade of `main`, lines 80-128 of `SU2_CFD.cpp`:
`none` models the fatal `exit(EXIT_FAILURE)` taken when a single-zone-only
solver kind meets `nZone > 1`; otherwise the constructed driver's arguments.
The multi-zone harmonic-balance branch computes
`nTimeInstances = config->GetnTimeInstances()*nGeomZones` with
`nGeomZones = nZone`, truncated as an unsigned short. -/
def selectDriver (c : MainInput) : Option DriverArgs :=
  if singleZoneSolverKind c.kind_Solver then
    if c.nZone > 1 then
      none
    else
      some ⟨DriverVariant.CGeneralDriver, c.config_file_name, c.nZone, c.nDim⟩
  else if c.unsteady_Simulation = UnsteadyMode.HARMONIC_BALANCE ∧ c.nZone = 1 then
    some ⟨DriverVariant.CHBDriver, c.config_file_name, c.nTimeInstances, c.nDim⟩
  else if c.unsteady_Simulation = UnsteadyMode.HARMONIC_BALANCE ∧ c.nZone > 1 then
    some ⟨DriverVariant.CGeneralHBDriver, c.config_file_name,
          ushort (c.nTimeInstances * c.nZone), c.nDim⟩
  else if c.nZone = 2 ∧ c.fsi then
    some ⟨DriverVariant.CFSIDriver, c.config_file_name, c.nZone, c.nDim⟩
  else
    some ⟨DriverVariant.CFluidDriver, c.config_file_name, c.nZone, c.nDim⟩

/-- Raw branch conditions of the cascade, in source order (the `else`
branch has no condition of its own). -/
def cond0 (c : MainInput) : Bool := singleZoneSolverKind c.kind_Solver

def cond1 (c : MainInput) : Bool :=
  c.unsteady_Simulation = UnsteadyMode.HARMONIC_BALANCE ∧ c.nZone = 1

def cond2 (c : MainInput) : Bool :=
  c.unsteady_Simulation = UnsteadyMode.HARMONIC_BALANCE ∧ c.nZone > 1

def cond3 (c : MainInput) : Bool := c.nZone = 2 ∧ c.fsi

/-- Effective guard of each of the five branches: a branch fires exactly
when its raw condition holds and no earlier branch's does (the semantics of
the `if / else if / else` cascade). -/
def effGuard (c : MainInput) : Fin 5 → Bool
  | 0 => cond0 c
  | 1 => !cond0 c && cond1 c
  | 2 => !cond0 c && !cond1 c && cond2 c
  | 3 => !cond0 c && !cond1 c && !cond2 c && cond3 c
  | 4 => !cond0 c && !cond1 c && !cond2 c && !cond3 c

/-- How many of the five effective guards fire on a configuration. -/
def guardCount (c : MainInput) : Nat :=
  (List.finRange 5).countP (fun i => effGuard c i)

/-- The branch the cascade takes on a configuration. -/
def firedBranch (c : MainInput) : Fin 5 :=
  if cond0 c then 0
  else if cond1 c then 1
  else if cond2 c then 2
  else if cond3 c then 3
  else 4

/-- What each branch of the cascade does once taken: the decision table of
spec section 4.4, read off the branch bodies of `main`. -/
def branchOutcome (c : MainInput) : Fin 5 → Option DriverArgs
  | 0 =>
      if c.nZone > 1 then none
      else some ⟨DriverVariant.CGeneralDriver, c.config_file_name, c.nZone, c.nDim⟩
  | 1 => some ⟨DriverVariant.CHBDriver, c.config_file_name, c.nTimeInstances, c.nDim⟩
  | 2 => some ⟨DriverVariant.CGeneralHBDriver, c.config_file_name,
               ushort (c.nTimeInstances * c.nZone), c.nDim⟩
  | 3 => some ⟨DriverVariant.CFSIDriver, c.config_file_name, c.nZone, c.nDim⟩
  | 4 => some ⟨DriverVariant.CFluidDriver, c.config_file_name, c.nZone, c.nDim⟩

/-- C value `EXIT_SUCCESS` as returned by `main`. -/
def EXIT_SUCCESS : Nat := 0

/-- C value `EXIT_FAILURE` as passed to `exit` on the fatal path. -/
def EXIT_FAILURE : Nat := 1

/-- Observable events of one run of `main`, in the order the statements
producing them appear in the source. -/
inductive Event where
  | newConfig
  | exitFailure
  | newDriver (d : DriverArgs)
  | deleteConfig
  | startSolver (d : DriverArgs)
  | postprocessing (d : DriverArgs)
  | deleteDriver (d : DriverArgs)
  | returnSuccess
  deriving DecidableEq, Repr

/-- The event trace of `main` on a configuration: the `CConfig` object is
created, the cascade either calls `exit(EXIT_FAILURE)` (ending the run) or
constructs one driver; then `main` deletes the config, calls
`driver->StartSolver()`, `driver->Postprocessing()`, deletes the driver and
returns `EXIT_SUCCESS`. -/
def mainTrace (c : MainInput) : List Event :=
  Event.newConfig ::
    match selectDriver c with
    | none => [Event.exitFailure]
    | some d =>
        [Event.newDriver d, Event.deleteConfig, Event.startSolver d,
         Event.postprocessing d, Event.deleteDriver d, Event.returnSuccess]

/-- The process exit code of a run of `main`. -/
def mainExitCode (c : MainInput) : Nat :=
  match selectDriver c with
  | none => EXIT_FAILURE
  | some _ => EXIT_SUCCESS

/-- Preprocessing stages of `CDeformationDriver`, as declared in its header
(protected members `SetContainers_Null` .. `Numerics_Preprocessing`). -/
inductive PreprocStage where
  | SetContainers_Null
  | Input_Preprocessing
  | Geometrical_Preprocessing
  | Output_Preprocessing
  | Solver_Preprocessing
  | Numerics_Preprocessing
  deriving DecidableEq, Repr

/-- Modelled from the spec: the body of the `CDeformationDriver` constructor
(its .cpp file) is not among the source files — the header only declares the
stage methods — so the stage sequence one driver lifetime runs is taken from
the spec's contract, a strict ordered sequence SetContainersNull,
InputPreprocessing, GeometricalPreprocessing, OutputPreprocessing,
SolverPreprocessing, NumericsPreprocessing, run exactly once per lifetime. -/
def preprocessingPipeline : List PreprocStage :=
  [PreprocStage.SetContainers_Null, PreprocStage.Input_Preprocessing,
   PreprocStage.Geometrical_Preprocessing, PreprocStage.Output_Preprocessing,
   PreprocStage.Solver_Preprocessing, PreprocStage.Numerics_Preprocessing]

/-- State of the deformation driver's boundary coupling surface. Modelled
from the spec: the bodies of `SetDisplacementsMarker` and
`GetDisplacementsMarker` are not among the source files (the header declares
them with "Vertex displacements (nVertex*nDim)"), so the per-marker
displacement store follows the spec's data model: `nVertex iMarker * nDim`
displacement components per marker, written by the setter and read back by
the getter, with a halo flag per marker vertex (`IsAHaloNode`). The
component values (`passivedouble` in the source) only ever get stored and
read back by the operations these claims involve — no arithmetic happens on
them — so they are modelled by `ℚ`. -/
structure DeformDriverState where
  nDim : Nat
  nVertex : Nat → Nat
  haloNode : Nat → Nat → Bool
  dispComponent : Nat → Nat → ℚ

/-- Write a displacement vector of length `nVertex iMarker * nDim` onto a
marker's displacement store. -/
def SetDisplacementsMarker (s : DeformDriverState) (iMarker : Nat)
    (values : List ℚ) : DeformDriverState :=
  { s with dispComponent := fun m i =>
      if m = iMarker ∧ i < s.nVertex iMarker * s.nDim then values.getD i 0
      else s.dispComponent m i }

/-- Read a marker's displacement store back as a vector of length
`nVertex iMarker * nDim`. -/
def GetDisplacementsMarker (s : DeformDriverState) (iMarker : Nat) : List ℚ :=
  (List.range (s.nVertex iMarker * s.nDim)).map fun i => s.dispComponent iMarker i

/-- Marker-vertex normal interface. The body of `GetVertexNormal` is not
among the source files, so it enters the model as an uninterpreted function
of the driver; `GetVertexUnitNormal` is embedded from its inline body in the
header, and the defaulted call embeds the declared default
`bool unitNormal = false`. -/
structure NormalInterface where
  GetVertexNormal : Nat → Nat → Bool → List ℚ

/-- Inline body in the header: `return GetVertexNormal(iMarker, iVertex, true);`. -/
def GetVertexUnitNormal (d : NormalInterface) (iMarker iVertex : Nat) : List ℚ :=
  d.GetVertexNormal iMarker iVertex true

/-- Call of `GetVertexNormal` with its third argument left to the declared
default, `bool unitNormal = false`. -/
def GetVertexNormalDefaulted (d : NormalInterface) (iMarker iVertex : Nat) : List ℚ :=
  d.GetVertexNormal iMarker iVertex false

/-! Helper lemmas shared by several theorems. -/

/-- Reading a marker's displacements right after writing them gives back the
written vector whole. -/
theorem getDisp_after_setDisp (s : DeformDriverState) (m : Nat) (v : List ℚ)
    (hlen : v.length = s.nVertex m * s.nDim) :
    GetDisplacementsMarker (SetDisplacementsMarker s m v) m = v := by
  apply List.ext_getElem
  · simp [GetDisplacementsMarker, SetDisplacementsMarker, hlen]
  · intro i h1 h2
    have hi : i < s.nVertex m * s.nDim := by
      simpa [GetDisplacementsMarker, SetDisplacementsMarker] using h1
    have hiv : i < v.length := by omega
    simp [GetDisplacementsMarker, SetDisplacementsMarker, hi,
      List.getElem?_eq_getElem hiv]

/-- The trace of `main` once the cascade has selected a driver. -/
theorem mainTrace_eq_of_selectDriver (c : MainInput) (d : DriverArgs)
    (h : selectDriver c = some d) :
    mainTrace c = [Event.newConfig, Event.newDriver d, Event.deleteConfig,
      Event.startSolver d, Event.postprocessing d, Event.deleteDriver d,
      Event.returnSuccess] := by
  simp [mainTrace, h]

/-! Theorems settling the claims. -/

/-- C1: the driver-variant selection in `main` is a pure function of the
configuration values, exactly one of the five cascade branches fires on any
configuration (mutual exclusion and exhaustiveness), and the selection
result is the fired branch's entry of the decision table. -/
theorem driver_selection_exactly_one_branch (c : MainInput) :
    guardCount c = 1 ∧ effGuard c (firedBranch c) = true ∧
      selectDriver c = branchOutcome c (firedBranch c) := by
  obtain ⟨fn, k, u, ti, fs, nz, nd⟩ := c
  by_cases hA : singleZoneSolverKind k = true <;>
    by_cases hB : u = UnsteadyMode.HARMONIC_BALANCE <;>
      cases fs <;>
        by_cases h1 : nz = 1 <;> by_cases h2 : 1 < nz <;> by_cases h3 : nz = 2 <;>
          first
            | (exfalso; omega)
            | (simp [guardCount, firedBranch, selectDriver, branchOutcome, effGuard,
                cond0, cond1, cond2, cond3, List.finRange, hA, hB, h1, h2, h3]; decide)

/-- Configuration with two zones, the fluid-structure flag set, a generic
solver kind — and harmonic-balance unsteady mode. -/
def fsiHBInput : MainInput :=
  ⟨"fsi_hb.cfg", SolverKind.EULER, UnsteadyMode.HARMONIC_BALANCE, 2, true, 2, 3⟩

/-- C2 counterexample: on a two-zone fluid-structure configuration whose
unsteady mode is harmonic balance, `main` selects the multi-zone
harmonic-balance driver, not `CFSIDriver` — the harmonic-balance branch is
tested before the fluid-structure branch. -/
theorem fsi_preempted_by_hb_counterexample :
    (singleZoneSolverKind fsiHBInput.kind_Solver = false ∧ fsiHBInput.nZone = 2 ∧
      fsiHBInput.fsi = true) ∧
      (selectDriver fsiHBInput).map DriverArgs.variant ≠ some DriverVariant.CFSIDriver ∧
      (selectDriver fsiHBInput).map DriverArgs.variant = some DriverVariant.CGeneralHBDriver := by
  decide

/-- C2 (amended): with exactly two zones, the fluid-structure flag set, a
solver kind that is not single-zone-only, and an unsteady mode that is not
harmonic balance, `main` selects `CFSIDriver`. -/
theorem fsi_driver_selected (c : MainInput)
    (hk : singleZoneSolverKind c.kind_Solver = false)
    (hu : c.unsteady_Simulation ≠ UnsteadyMode.HARMONIC_BALANCE)
    (hz : c.nZone = 2) (hf : c.fsi = true) :
    selectDriver c =
      some ⟨DriverVariant.CFSIDriver, c.config_file_name, c.nZone, c.nDim⟩ := by
  simp [selectDriver, hk, hu, hz, hf]

/-- C2 witness: a concrete steady two-zone FSI configuration gets `CFSIDriver`. -/
theorem fsi_driver_selected_witness :
    selectDriver ⟨"fsi.cfg", SolverKind.EULER, UnsteadyMode.STEADY, 1, true, 2, 3⟩ =
      some ⟨DriverVariant.CFSIDriver, "fsi.cfg", 2, 3⟩ :=
  fsi_driver_selected _ (by decide) (by decide) rfl rfl

/-- C3: a single-zone-only solver kind (structural/Poisson/wave/heat) with
more than one zone makes `main` exit with `EXIT_FAILURE` at once: no driver
is constructed and no solve work appears in the trace. -/
theorem single_zone_solver_multizone_aborts (c : MainInput)
    (hk : singleZoneSolverKind c.kind_Solver = true) (hz : 1 < c.nZone) :
    selectDriver c = none ∧
      mainTrace c = [Event.newConfig, Event.exitFailure] ∧
      mainExitCode c = EXIT_FAILURE := by
  have hsel : selectDriver c = none := by simp [selectDriver, hk, hz]
  exact ⟨hsel, by simp [mainTrace, hsel], by simp [mainExitCode, hsel]⟩

/-- C3 witness: a structural solver with two zones aborts. -/
theorem single_zone_solver_multizone_aborts_witness :
    selectDriver ⟨"elas.cfg", SolverKind.FEM_ELASTICITY, UnsteadyMode.STEADY, 1, false, 2, 3⟩ = none ∧
      mainTrace ⟨"elas.cfg", SolverKind.FEM_ELASTICITY, UnsteadyMode.STEADY, 1, false, 2, 3⟩ =
        [Event.newConfig, Event.exitFailure] ∧
      mainExitCode ⟨"elas.cfg", SolverKind.FEM_ELASTICITY, UnsteadyMode.STEADY, 1, false, 2, 3⟩ =
        EXIT_FAILURE :=
  single_zone_solver_multizone_aborts _ (by decide) (by decide)

/-- Configuration with harmonic-balance unsteady mode, three zones — and a
single-zone-only (structural) solver kind. -/
def hbStructuralInput : MainInput :=
  ⟨"hb_elas.cfg", SolverKind.FEM_ELASTICITY, UnsteadyMode.HARMONIC_BALANCE, 5, false, 3, 3⟩

/-- C4 counterexample: a harmonic-balance configuration with three zones
whose solver kind is structural does not get the multi-zone harmonic-balance
driver — the single-zone-only solver branch is tested first and `main`
exits fatally. -/
theorem hb_multizone_preempted_counterexample :
    (hbStructuralInput.unsteady_Simulation = UnsteadyMode.HARMONIC_BALANCE ∧
      1 < hbStructuralInput.nZone) ∧
      (selectDriver hbStructuralInput).map DriverArgs.variant ≠
        some DriverVariant.CGeneralHBDriver ∧
      selectDriver hbStructuralInput = none := by
  decide

/-- C4 (amended): with harmonic-balance unsteady mode, more than one zone
and a solver kind that is not single-zone-only, `main` selects the
multi-zone harmonic-balance driver, constructed with a total time-instance
count equal to the per-zone count times the number of geometric zones
(exact whenever the product fits in an unsigned short). -/
theorem hb_multizone_driver_selected (c : MainInput)
    (hk : singleZoneSolverKind c.kind_Solver = false)
    (hu : c.unsteady_Simulation = UnsteadyMode.HARMONIC_BALANCE)
    (hz : 1 < c.nZone)
    (hfit : c.nTimeInstances * c.nZone < 65536) :
    selectDriver c =
      some ⟨DriverVariant.CGeneralHBDriver, c.config_file_name,
        c.nTimeInstances * c.nZone, c.nDim⟩ := by
  have hz1 : ¬ c.nZone = 1 := by omega
  simp [selectDriver, hk, hu, hz, hz1, ushort, Nat.mod_eq_of_lt hfit]

/-- C4 witness: a generic harmonic-balance configuration with 3 zones and 5
per-zone time instances yields `CGeneralHBDriver` with 15 time instances. -/
theorem hb_multizone_driver_selected_witness :
    selectDriver ⟨"hb.cfg", SolverKind.EULER, UnsteadyMode.HARMONIC_BALANCE, 5, false, 3, 3⟩ =
      some ⟨DriverVariant.CGeneralHBDriver, "hb.cfg", 15, 3⟩ :=
  hb_multizone_driver_selected _ (by decide) rfl (by decide) (by decide)

/-- C5: every run of `main` either completes normally — exit code
`EXIT_SUCCESS` with `return EXIT_SUCCESS` reached and no fatal exit in the
trace — or takes the fatal path — non-zero exit code `EXIT_FAILURE`, with
the fatal exit in the trace and normal completion never reached. -/
theorem exit_code_partition (c : MainInput) :
    (mainExitCode c = EXIT_SUCCESS ∧ Event.returnSuccess ∈ mainTrace c ∧
       Event.exitFailure ∉ mainTrace c) ∨
    (mainExitCode c = EXIT_FAILURE ∧ EXIT_FAILURE ≠ 0 ∧
       Event.exitFailure ∈ mainTrace c ∧ Event.returnSuccess ∉ mainTrace c) := by
  cases h : selectDriver c with
  | none =>
      right
      simp [mainExitCode, mainTrace, h, EXIT_FAILURE]
  | some d =>
      left
      simp [mainExitCode, mainTrace, h, EXIT_SUCCESS]

/-- C8: whenever a driver is selected, `main` runs `StartSolver` then
`Postprocessing` on it, destroys it exactly once afterwards, and the only
event after the destruction is the `return` — no driver method is invoked
after the driver is deleted. -/
theorem driver_lifecycle (c : MainInput) (d : DriverArgs)
    (h : selectDriver c = some d) :
    mainTrace c = [Event.newConfig, Event.newDriver d, Event.deleteConfig,
        Event.startSolver d, Event.postprocessing d, Event.deleteDriver d,
        Event.returnSuccess] ∧
      (mainTrace c).count (Event.deleteDriver d) = 1 ∧
      (mainTrace c).dropWhile (fun e => e ≠ Event.deleteDriver d) =
        [Event.deleteDriver d, Event.returnSuccess] := by
  have ht := mainTrace_eq_of_selectDriver c d h
  refine ⟨ht, ?_, ?_⟩ <;> rw [ht] <;> simp [List.count_cons, List.dropWhile]

/-- Concrete single-zone steady flow configuration. -/
def flowInput : MainInput :=
  ⟨"flow.cfg", SolverKind.NAVIER_STOKES, UnsteadyMode.STEADY, 1, false, 1, 2⟩

/-- Driver arguments `main` builds for `flowInput`. -/
def flowDriver : DriverArgs := ⟨DriverVariant.CFluidDriver, "flow.cfg", 1, 2⟩

/-- C8 witness: the lifecycle on a concrete single-zone flow configuration. -/
theorem driver_lifecycle_witness :
    mainTrace flowInput = [Event.newConfig, Event.newDriver flowDriver,
        Event.deleteConfig, Event.startSolver flowDriver,
        Event.postprocessing flowDriver, Event.deleteDriver flowDriver,
        Event.returnSuccess] ∧
      (mainTrace flowInput).count (Event.deleteDriver flowDriver) = 1 ∧
      (mainTrace flowInput).dropWhile (fun e => e ≠ Event.deleteDriver flowDriver) =
        [Event.deleteDriver flowDriver, Event.returnSuccess] :=
  driver_lifecycle flowInput flowDriver (by decide)

/-- C10: the selected driver is constructed only from the configuration
file name, one zone/time-instance count and the dimensionality — never from
the live `CConfig` pointer — and the `CConfig` object is deleted (trace
position 2) before `StartSolver` runs (trace position 3). -/
theorem driver_independent_of_deleted_config (c : MainInput) (d : DriverArgs)
    (h : selectDriver c = some d) :
    d.config_file_name = c.config_file_name ∧ d.nDim = c.nDim ∧
      (d.count = c.nZone ∨ d.count = c.nTimeInstances ∨
        d.count = ushort (c.nTimeInstances * c.nZone)) ∧
      (mainTrace c).get? 2 = some Event.deleteConfig ∧
      (mainTrace c).get? 3 = some (Event.startSolver d) := by
  have ht := mainTrace_eq_of_selectDriver c d h
  refine ⟨?_, ?_, ?_, by simp [ht], by simp [ht]⟩ <;>
    · unfold selectDriver at h
      split_ifs at h <;> simp only [Option.some.injEq] at h <;> subst h <;> simp

/-- Concrete single-zone harmonic-balance configuration. -/
def hbInput : MainInput :=
  ⟨"hb1.cfg", SolverKind.EULER, UnsteadyMode.HARMONIC_BALANCE, 4, false, 1, 2⟩

/-- Driver arguments `main` builds for `hbInput`. -/
def hbDriver : DriverArgs := ⟨DriverVariant.CHBDriver, "hb1.cfg", 4, 2⟩

/-- C10 witness: the harmonic-balance driver on a concrete single-zone
configuration is built from the file name, the time-instance count and the
dimensionality, and the config deletion precedes `StartSolver`. -/
theorem driver_independent_of_deleted_config_witness :
    hbDriver.config_file_name = hbInput.config_file_name ∧ hbDriver.nDim = hbInput.nDim ∧
      (hbDriver.count = hbInput.nZone ∨ hbDriver.count = hbInput.nTimeInstances ∨
        hbDriver.count = ushort (hbInput.nTimeInstances * hbInput.nZone)) ∧
      (mainTrace hbInput).get? 2 = some Event.deleteConfig ∧
      (mainTrace hbInput).get? 3 = some (Event.startSolver hbDriver) :=
  driver_independent_of_deleted_config hbInput hbDriver (by decide)

/-- C6: in a deformation-driver lifetime the six preprocessing stages run in
the strict order SetContainers_Null, Input_Preprocessing,
Geometrical_Preprocessing, Output_Preprocessing, Solver_Preprocessing,
Numerics_Preprocessing, and every stage runs exactly once. -/
theorem deformation_preprocessing_order :
    (preprocessingPipeline.indexOf PreprocStage.SetContainers_Null <
        preprocessingPipeline.indexOf PreprocStage.Input_Preprocessing ∧
      preprocessingPipeline.indexOf PreprocStage.Input_Preprocessing <
        preprocessingPipeline.indexOf PreprocStage.Geometrical_Preprocessing ∧
      preprocessingPipeline.indexOf PreprocStage.Geometrical_Preprocessing <
        preprocessingPipeline.indexOf PreprocStage.Output_Preprocessing ∧
      preprocessingPipeline.indexOf PreprocStage.Output_Preprocessing <
        preprocessingPipeline.indexOf PreprocStage.Solver_Preprocessing ∧
      preprocessingPipeline.indexOf PreprocStage.Solver_Preprocessing <
        preprocessingPipeline.indexOf PreprocStage.Numerics_Preprocessing) ∧
      ∀ s : PreprocStage, preprocessingPipeline.count s = 1 := by
  refine ⟨by decide, ?_⟩
  intro s
  cases s <;> rfl

/-- C7: writing a displacement vector of length `nVertex*nDim` on a marker
and reading it back at once, with no intervening `Update`, returns the
written component at every owned (non-halo) vertex of the marker. -/
theorem displacements_marker_roundtrip (s : DeformDriverState)
    (m iVertex dimIdx : Nat) (v : List ℚ)
    (hlen : v.length = s.nVertex m * s.nDim)
    (_hv : iVertex < s.nVertex m) (_hd : dimIdx < s.nDim)
    (_hown : s.haloNode m iVertex = false) :
    (GetDisplacementsMarker (SetDisplacementsMarker s m v) m).getD
        (iVertex * s.nDim + dimIdx) 0 =
      v.getD (iVertex * s.nDim + dimIdx) 0 := by
  rw [getDisp_after_setDisp s m v hlen]

/-- Concrete coupling state: one marker with two vertices in two dimensions,
no halo vertices, zero stored displacement. -/
def planarState : DeformDriverState :=
  ⟨2, fun _ => 2, fun _ _ => false, fun _ _ => 0⟩

/-- C7 witness: the round trip on a concrete marker state returns the
written component of vertex 1, dimension 0. -/
theorem displacements_marker_roundtrip_witness :
    (GetDisplacementsMarker (SetDisplacementsMarker planarState 0 [1, 2, 3, 4]) 0).getD
        (1 * planarState.nDim + 0) 0 =
      ([1, 2, 3, 4] : List ℚ).getD (1 * planarState.nDim + 0) 0 :=
  displacements_marker_roundtrip planarState 0 1 0 [1, 2, 3, 4]
    (by decide) (by decide) (by decide) rfl

/-- C9: `GetVertexUnitNormal(m, v)` returns exactly
`GetVertexNormal(m, v, true)`, and a `GetVertexNormal` call that leaves the
third argument to its declared default passes `unitNormal = false`. -/
theorem unit_normal_is_normal_with_true (d : NormalInterface)
    (iMarker iVertex : Nat) :
    GetVertexUnitNormal d iMarker iVertex = d.GetVertexNormal iMarker iVertex true ∧
      GetVertexNormalDefaulted d iMarker iVertex = d.GetVertexNormal iMarker iVertex false :=
  ⟨rfl, rfl⟩

end SU2
